import Mathlib

/-!
Verification of the bootimage disk-image composer (src/main.rs).

The program assembles a flat bootable disk image: bootloader payload bytes,
a 512-byte kernel metadata block, the kernel bytes streamed from a file,
and zero padding up to a 512-byte boundary.  Bytes are modelled as Nat
(values < 256 where produced by the code), byte buffers as List Nat, and
fallible operations as Except.  A Rust panic is modelled as returning the
corresponding error value, since it is a failure that produces no result.
-/

namespace Bootimage

/-- Error taxonomy of the composer.  Io covers io::Error values propagated
with the question-mark operator; the other three model the failure paths
named by the specification: the panic in create_kernel_info_block
(kernelTooLarge), the unwrap of the ELF sanity check (malformedElf) and the
expect on the section lookup (sectionNotFound). -/
inductive Err where
  | ioErr
  | malformedElf
  | sectionNotFound
  | kernelTooLarge
deriving DecidableEq, Repr

/-- BLOCK_SIZE constant from main.rs. -/
def BLOCK_SIZE : Nat := 512

/-- Largest value of a Rust u32, u32::max_value(). -/
def u32max : Nat := 4294967295

/-- LittleEndian::write_u32: the four little-endian bytes of a 32-bit value. -/
def writeU32LE (n : Nat) : List Nat :=
  [n % 256, n / 256 % 256, n / 65536 % 256, n / 16777216 % 256]

/-- Little-endian decoding of a four-byte buffer, the inverse reading of the
first four bytes of the kernel info block. -/
def decodeU32LE : List Nat → Nat
  | [a, b, c, d] => a + 256 * b + 65536 * c + 16777216 * d
  | _ => 0

/-- create_kernel_info_block from main.rs: if the kernel size fits in a u32,
a 512-byte block whose first four bytes are the size in little-endian and
whose remaining 508 bytes are zero; otherwise the function panics
(modelled as the kernelTooLarge error). -/
def create_kernel_info_block (kernelSize : Nat) : Except Err (List Nat) :=
  if kernelSize ≤ u32max then
    Except.ok (writeU32LE kernelSize ++ List.replicate 508 0)
  else
    Except.error Err.kernelTooLarge

/-- Modelled from the spec: a section header table entry of the bootloader
ELF image, as read by the external xmas_elf library (not part of this
repository): a name, a file offset and a file-size field. -/
structure SectionHeader where
  name : String
  offset : Nat
  size : Nat
deriving DecidableEq, Repr

/-- Modelled from the spec: the bootloader ELF image as seen by the
extractor, its raw bytes together with the parsed section header table. -/
structure ElfInput where
  bytes : List Nat
  sections : List SectionHeader
deriving DecidableEq, Repr

/-- Modelled from the spec: the structural sanity check performed by
xmas_elf (ElfFile::new and header::sanity_check, both external to this
repository): magic identification bytes 0x7f E L F, declared class
(64-bit) and endianness (little), and that the offset/size range of every
section header lies within the buffer bounds. -/
def structuralOk (e : ElfInput) : Bool :=
  decide (e.bytes.take 4 = [0x7f, 0x45, 0x4c, 0x46]) &&
  decide (e.bytes.get? 4 = some 2) &&
  decide (e.bytes.get? 5 = some 1) &&
  e.sections.all (fun h => h.offset + h.size ≤ e.bytes.length)

/-- Modelled from the spec: the ELF section extractor used by
build_bootloader in main.rs (ElfFile::new + sanity_check +
find_section_by_name + raw_data, all implemented in the external xmas_elf
library).  Structural validation runs first; only if it passes is the
section table scanned for an exact name match; on success the result is
the raw on-disk byte range recorded by the header. -/
def extractSection (e : ElfInput) (sectionName : String) : Except Err (List Nat) :=
  if structuralOk e then
    match e.sections.find? (fun h => h.name == sectionName) with
    | some h => Except.ok ((e.bytes.drop h.offset).take h.size)
    | none => Except.error Err.sectionNotFound
  else
    Except.error Err.malformedElf

/-- One result of kernel.read(&mut buffer) in the copy loop of
create_disk_image: Ok with the bytes read (the empty list is Ok(0), end of
file), an ErrorKind::Interrupted error, or any other io error. -/
inductive ReadEvent where
  | ok (data : List Nat)
  | errInterrupted
  | errFatal
deriving DecidableEq, Repr

/-- Whether a read result is the transient Interrupted condition. -/
def isInterrupted : ReadEvent → Bool
  | ReadEvent.errInterrupted => true
  | _ => false

/-- The kernel stream-copy loop of create_disk_image over a finite list of
read results: Ok(0) breaks, Ok(n) appends the n bytes to the output,
Interrupted writes nothing and continues, any other error aborts the
composition.  Returns the bytes written by the loop and the error, if any.
An exhausted event list is treated like end of file. -/
def copyKernel : List ReadEvent → List Nat × Option Err
  | [] => ([], none)
  | ReadEvent.ok [] :: _ => ([], none)
  | ReadEvent.ok (b :: bs) :: rest =>
      let r := copyKernel rest
      (b :: bs ++ r.1, r.2)
  | ReadEvent.errInterrupted :: rest => copyKernel rest
  | ReadEvent.errFatal :: _ => ([], some Err.ioErr)

/-- padding_size computation of create_disk_image:
((512 - (kernel_size % 512)) % 512) as usize.  In u64 the subtraction
cannot underflow because kernel_size % 512 is at most 511, so Nat
subtraction is faithful. -/
def padding_size (kernelSize : Nat) : Nat := (512 - kernelSize % 512) % 512

/-- create_disk_image from main.rs as the byte content of the output file:
bootloader bytes first, then the kernel info block, then the bytes written
by the copy loop; on loop failure the composition aborts there with the
error and no padding, otherwise padding_size zero bytes follow.  The
kernelSize argument is the length reported by kernel.metadata(), which the
code uses only for the padding computation. -/
def create_disk_image (bootloaderData infoBlock : List Nat) (kernelSize : Nat)
    (events : List ReadEvent) : List Nat × Option Err :=
  let r := copyKernel events
  match r.2 with
  | some e => (bootloaderData ++ infoBlock ++ r.1, some e)
  | none =>
      (bootloaderData ++ infoBlock ++ r.1 ++ List.replicate (padding_size kernelSize) 0, none)

/-- The core pipeline of run() in main.rs, in its order: the kernel info
block is created first (a failure there precedes every write), then the
bootloader payload is extracted from the ELF image (a failure there also
precedes every write), and only then is the disk image composed.  Returns
the bytes written to the output file and the error, if any. -/
def runModel (kernelSize : Nat) (events : List ReadEvent) (elf : ElfInput) :
    List Nat × Option Err :=
  match create_kernel_info_block kernelSize with
  | Except.error e => ([], some e)
  | Except.ok infoBlock =>
    match extractSection elf ".bootloader" with
    | Except.error e => ([], some e)
    | Except.ok boot => create_disk_image boot infoBlock kernelSize events

/-- Whether a read result terminates the copy loop: end of file (Ok(0)) or
a non-interrupted error. -/
def isTerminal : ReadEvent → Bool
  | ReadEvent.ok [] => true
  | ReadEvent.errFatal => true
  | _ => false

/-- Fuel-bounded run of the copy loop of create_disk_image over an infinite
stream of read results, tracking only termination: true when the loop
reaches a terminal read within the given number of iterations, starting at
stream index i.  Ok(n) with n positive and Interrupted both continue. -/
def copyFuel (stream : Nat → ReadEvent) : Nat → Nat → Bool
  | 0, _ => false
  | fuel + 1, i =>
      if isTerminal (stream i) then true else copyFuel stream fuel (i + 1)

/- ### Helper lemmas -/

/-- Little-endian round trip for values that fit in 32 bits. -/
theorem decode_writeU32LE (n : Nat) (h : n ≤ u32max) :
    decodeU32LE (writeU32LE n) = n := by
  simp only [writeU32LE, decodeU32LE, u32max] at *
  omega

/-- Filtering the Interrupted results out of an event list does not change
the outcome of the copy loop. -/
theorem copyKernel_filter (events : List ReadEvent) :
    copyKernel (events.filter (fun e => !(isInterrupted e))) = copyKernel events := by
  induction events with
  | nil => rfl
  | cons e rest ih =>
      cases e with
      | ok data =>
          have hf : (ReadEvent.ok data :: rest).filter (fun e => !(isInterrupted e))
              = ReadEvent.ok data :: rest.filter (fun e => !(isInterrupted e)) := by
            simp [List.filter_cons, isInterrupted]
          rw [hf]
          cases data with
          | nil => rfl
          | cons b bs =>
              simp only [copyKernel]
              rw [ih]
      | errInterrupted =>
          have hf : (ReadEvent.errInterrupted :: rest).filter (fun e => !(isInterrupted e))
              = rest.filter (fun e => !(isInterrupted e)) := by
            simp [List.filter_cons, isInterrupted]
          rw [hf]
          exact ih
      | errFatal =>
          have hf : (ReadEvent.errFatal :: rest).filter (fun e => !(isInterrupted e))
              = ReadEvent.errFatal :: rest.filter (fun e => !(isInterrupted e)) := by
            simp [List.filter_cons, isInterrupted]
          rw [hf]
          rfl

/-- Successful composition lays the image out as bootloader, info block,
kernel bytes, padding. -/
theorem create_disk_image_layout (boot ib : List Nat) (kernelSize : Nat)
    (events : List ReadEvent) (content : List Nat)
    (h : copyKernel events = (content, none)) :
    create_disk_image boot ib kernelSize events =
      (boot ++ ib ++ content ++ List.replicate (padding_size kernelSize) 0, none) := by
  simp [create_disk_image, h]

/-- If some index of the stream is terminal within the fuel bound, the
fuel-bounded loop terminates. -/
theorem copyFuel_of_terminal (stream : Nat → ReadEvent) :
    ∀ fuel i, (∃ j, j < fuel ∧ isTerminal (stream (i + j)) = true) →
      copyFuel stream fuel i = true := by
  intro fuel
  induction fuel with
  | zero => intro i h; rcases h with ⟨j, hj, _⟩; omega
  | succ f ih =>
      intro i h
      rcases h with ⟨j, hj, hterm⟩
      by_cases hi : isTerminal (stream i) = true
      · simp [copyFuel, hi]
      · have hj0 : j ≠ 0 := by
          intro h0; rw [h0] at hterm; simp at hterm; exact hi hterm
        have : copyFuel stream f (i + 1) = true := by
          apply ih
          refine ⟨j - 1, by omega, ?_⟩
          have : i + 1 + (j - 1) = i + j := by omega
          rw [this]; exact hterm
        simp [copyFuel, hi, this]

/-- If the fuel-bounded loop terminates, some index of the stream is
terminal. -/
theorem terminal_of_copyFuel (stream : Nat → ReadEvent) :
    ∀ fuel i, copyFuel stream fuel i = true →
      ∃ j, isTerminal (stream (i + j)) = true := by
  intro fuel
  induction fuel with
  | zero => intro i h; simp [copyFuel] at h
  | succ f ih =>
      intro i h
      by_cases hi : isTerminal (stream i) = true
      · exact ⟨0, by simpa using hi⟩
      · simp [copyFuel, hi] at h
        rcases ih (i + 1) h with ⟨j, hj⟩
        exact ⟨j + 1, by have : i + (j + 1) = i + 1 + j := by omega
                         rw [this]; exact hj⟩

/-- A source that yields one nonempty chunk and then end of file writes
exactly that chunk and succeeds. -/
theorem copyKernel_single_chunk (b : Nat) (bs : List Nat) :
    copyKernel [ReadEvent.ok (b :: bs), ReadEvent.ok []] = (b :: bs, none) := by
  simp [copyKernel]

/-- copyKernel_single_chunk for a replicated chunk of positive length. -/
theorem copyKernel_single_replicate (n v : Nat) :
    copyKernel [ReadEvent.ok (List.replicate (n + 1) v), ReadEvent.ok []] =
      (List.replicate (n + 1) v, none) := by
  rw [List.replicate_succ]
  exact copyKernel_single_chunk v (List.replicate n v)

/- ### Claim theorems -/

set_option maxRecDepth 10000

/-- C1: for every bootloader byte sequence, kernel info block and kernel
byte source, the composed disk image is bootloader bytes at offset 0, then
the 512-byte metadata block (first four bytes the kernel size in unsigned
32-bit little-endian, bytes 4..512 zero), then the kernel bytes in order,
then zero padding; in particular for bootloader [0xAA, 0xBB] and a
600-zero-byte kernel the output is 1538 bytes: AA BB, 58 02 00 00,
508 zero bytes, 600 zero bytes, 424 zero bytes. -/
theorem C1_image_layout :
    (∀ (boot : List Nat) (kernelSize : Nat) (events : List ReadEvent)
        (content ib : List Nat),
      kernelSize ≤ u32max →
      create_kernel_info_block kernelSize = Except.ok ib →
      copyKernel events = (content, none) →
      content.length = kernelSize →
      ib.length = 512 ∧
      decodeU32LE (ib.take 4) = kernelSize ∧
      ib.drop 4 = List.replicate 508 0 ∧
      create_disk_image boot ib kernelSize events =
        (boot ++ ib ++ content ++ List.replicate (padding_size kernelSize) 0, none)) ∧
    (create_disk_image [0xAA, 0xBB] (writeU32LE 600 ++ List.replicate 508 0) 600
        [ReadEvent.ok (List.replicate 600 0), ReadEvent.ok []] =
      ([0xAA, 0xBB] ++ [0x58, 0x02, 0x00, 0x00] ++ List.replicate 508 0 ++
        List.replicate 600 0 ++ List.replicate 424 0, none) ∧
     ([0xAA, 0xBB] ++ [0x58, 0x02, 0x00, 0x00] ++ List.replicate 508 0 ++
        List.replicate 600 0 ++ List.replicate 424 0).length = 1538) := by
  constructor
  · intro boot kernelSize events content ib hs hib hcopy hlen
    have hib2 : ib = writeU32LE kernelSize ++ List.replicate 508 0 := by
      simp [create_kernel_info_block, hs] at hib
      exact hib.symm
    subst hib2
    refine ⟨by simp [writeU32LE], ?_, by simp [writeU32LE], ?_⟩
    · have ht : (writeU32LE kernelSize ++ List.replicate 508 0).take 4 =
          writeU32LE kernelSize := by
        simp [writeU32LE]
      rw [ht]
      exact decode_writeU32LE kernelSize hs
    · exact create_disk_image_layout boot _ kernelSize events content hcopy
  · have hcopy : copyKernel [ReadEvent.ok (List.replicate 600 0), ReadEvent.ok []] =
        (List.replicate 600 0, none) := copyKernel_single_replicate 599 0
    have hlay := create_disk_image_layout [0xAA, 0xBB]
      (writeU32LE 600 ++ List.replicate 508 0) 600
      [ReadEvent.ok (List.replicate 600 0), ReadEvent.ok []]
      (List.replicate 600 0) hcopy
    constructor
    · rw [hlay]
      have h1 : writeU32LE 600 = [0x58, 0x02, 0x00, 0x00] := rfl
      have h2 : padding_size 600 = 424 := rfl
      rw [h1, h2]
      simp [List.append_assoc]
    · simp [List.length_append, List.length_replicate]

/-- C1 witness: the general layout statement applied to the concrete
scenario of a 2-byte bootloader and a 600-zero-byte kernel. -/
theorem C1_image_layout_witness :
    create_disk_image [0xAA, 0xBB] (writeU32LE 600 ++ List.replicate 508 0) 600
        [ReadEvent.ok (List.replicate 600 0), ReadEvent.ok []] =
      ([0xAA, 0xBB] ++ (writeU32LE 600 ++ List.replicate 508 0) ++
        List.replicate 600 0 ++ List.replicate (padding_size 600) 0, none) :=
  (C1_image_layout.1 [0xAA, 0xBB] 600
    [ReadEvent.ok (List.replicate 600 0), ReadEvent.ok []]
    (List.replicate 600 0) (writeU32LE 600 ++ List.replicate 508 0)
    (by decide) (by simp [create_kernel_info_block, u32max])
    (copyKernel_single_replicate 599 0) (by simp)).2.2.2

/-- C2: the composed image length equals bootloader length + 512 + kernel
length + padding, with padding = (512 − kernel_len mod 512) mod 512, and
the length of the region starting at the metadata block is a whole
multiple of 512. -/
theorem C2_image_length (boot : List Nat) (kernelSize : Nat)
    (events : List ReadEvent) (content ib : List Nat)
    (hs : kernelSize ≤ u32max)
    (hib : create_kernel_info_block kernelSize = Except.ok ib)
    (hcopy : copyKernel events = (content, none))
    (hlen : content.length = kernelSize) :
    (create_disk_image boot ib kernelSize events).1.length =
      boot.length + 512 + kernelSize + padding_size kernelSize ∧
    padding_size kernelSize = (512 - kernelSize % 512) % 512 ∧
    ((create_disk_image boot ib kernelSize events).1.length - boot.length) % 512 = 0 := by
  have hib2 : ib = writeU32LE kernelSize ++ List.replicate 508 0 := by
    simp [create_kernel_info_block, hs] at hib
    exact hib.symm
  have hlay := create_disk_image_layout boot ib kernelSize events content hcopy
  have hlength : (create_disk_image boot ib kernelSize events).1.length =
      boot.length + 512 + kernelSize + padding_size kernelSize := by
    rw [hlay]
    simp [hib2, writeU32LE, hlen]
    omega
  refine ⟨hlength, rfl, ?_⟩
  rw [hlength]
  simp only [padding_size]
  omega

/-- C2 witness: the length equation at a concrete composition with a
3-byte bootloader and a 5-byte kernel. -/
theorem C2_image_length_witness :
    (create_disk_image [1, 2, 3] (writeU32LE 5 ++ List.replicate 508 0) 5
        [ReadEvent.ok [9, 9, 9, 9, 9], ReadEvent.ok []]).1.length =
      3 + 512 + 5 + padding_size 5 :=
  (C2_image_length [1, 2, 3] 5 [ReadEvent.ok [9, 9, 9, 9, 9], ReadEvent.ok []]
    [9, 9, 9, 9, 9] (writeU32LE 5 ++ List.replicate 508 0)
    (by decide) (by simp [create_kernel_info_block, u32max])
    (copyKernel_single_chunk 9 [9, 9, 9, 9]) (by simp)).1

/-- C3: for every kernel length S in [0, 2^32 − 1] the metadata encoder
produces a 512-byte block whose first four bytes decode little-endian to
exactly S and whose bytes 4..512 are all zero. -/
theorem C3_info_block_roundtrip (S : Nat) (h : S ≤ u32max) :
    ∃ block, create_kernel_info_block S = Except.ok block ∧
      block.length = 512 ∧
      decodeU32LE (block.take 4) = S ∧
      block.drop 4 = List.replicate 508 0 := by
  refine ⟨writeU32LE S ++ List.replicate 508 0, ?_, ?_, ?_, ?_⟩
  · simp [create_kernel_info_block, h]
  · simp [writeU32LE]
  · have ht : (writeU32LE S ++ List.replicate 508 0).take 4 = writeU32LE S := by
      simp [writeU32LE]
    rw [ht]
    exact decode_writeU32LE S h
  · simp [writeU32LE]

/-- C3 witness: the round trip at the concrete kernel length 600. -/
theorem C3_info_block_roundtrip_witness :
    ∃ block, create_kernel_info_block 600 = Except.ok block ∧
      block.length = 512 ∧
      decodeU32LE (block.take 4) = 600 ∧
      block.drop 4 = List.replicate 508 0 :=
  C3_info_block_roundtrip 600 (by decide)

/-- C4: for every kernel length of 2^32 or more, the metadata encoder
fails with kernelTooLarge and produces no block, and the whole pipeline
fails there with no output bytes written. -/
theorem C4_kernel_too_large (S : Nat) (h : 4294967296 ≤ S)
    (events : List ReadEvent) (elf : ElfInput) :
    create_kernel_info_block S = Except.error Err.kernelTooLarge ∧
    runModel S events elf = ([], some Err.kernelTooLarge) := by
  have hS : ¬ S ≤ u32max := by simp only [u32max]; omega
  constructor
  · simp [create_kernel_info_block, hS]
  · simp [runModel, create_kernel_info_block, hS]

/-- C4 witness: the failure at the concrete kernel length 2^32. -/
theorem C4_kernel_too_large_witness :
    create_kernel_info_block 4294967296 = Except.error Err.kernelTooLarge ∧
    runModel 4294967296 [] ⟨[], []⟩ = ([], some Err.kernelTooLarge) :=
  C4_kernel_too_large 4294967296 (by decide) [] ⟨[], []⟩

/-- C5: a buffer failing structural validation makes the extractor fail
with malformedElf for every requested section name, before any section
lookup; a structurally valid buffer with no section named .bootloader
makes it fail with sectionNotFound; in both cases the pipeline stops with
no output bytes written. -/
theorem C5_elf_errors (S : Nat) (hS : S ≤ u32max) (events : List ReadEvent)
    (elf : ElfInput) :
    (structuralOk elf = false →
      (∀ sectionName, extractSection elf sectionName = Except.error Err.malformedElf) ∧
      runModel S events elf = ([], some Err.malformedElf)) ∧
    (structuralOk elf = true →
      (∀ sh ∈ elf.sections, sh.name ≠ ".bootloader") →
      extractSection elf ".bootloader" = Except.error Err.sectionNotFound ∧
      runModel S events elf = ([], some Err.sectionNotFound)) := by
  constructor
  · intro hbad
    constructor
    · intro sectionName
      simp [extractSection, hbad]
    · simp [runModel, create_kernel_info_block, hS, extractSection, hbad]
  · intro hgood hnone
    have hfind : elf.sections.find? (fun h => h.name == ".bootloader") = none := by
      rw [List.find?_eq_none]
      intro sh hmem
      simpa using hnone sh hmem
    constructor
    · simp [extractSection, hgood, hfind]
    · simp [runModel, create_kernel_info_block, hS, extractSection, hgood, hfind]

/-- C5 witness: an empty buffer fails structurally and a minimal valid
header with an empty section table lacks the .bootloader section; in both
cases the pipeline writes nothing. -/
theorem C5_elf_errors_witness :
    runModel 0 [] ⟨[], []⟩ = ([], some Err.malformedElf) ∧
    runModel 0 [] ⟨[0x7f, 0x45, 0x4c, 0x46, 2, 1], []⟩ =
      ([], some Err.sectionNotFound) := by
  constructor
  · exact ((C5_elf_errors 0 (by decide) [] ⟨[], []⟩).1 (by decide)).2
  · exact ((C5_elf_errors 0 (by decide) [] ⟨[0x7f, 0x45, 0x4c, 0x46, 2, 1], []⟩).2
      (by decide) (by intro sh hmem; simp at hmem)).2

/-- C6: for a structurally valid ELF input whose section table lookup for
the exact name .bootloader finds a header, the extractor returns exactly
the raw on-disk byte range of that header, of length given by the
file-size field of the header, unmodified. -/
theorem C6_extract_raw (elf : ElfInput) (sh : SectionHeader)
    (hok : structuralOk elf = true)
    (hfind : elf.sections.find? (fun h => h.name == ".bootloader") = some sh) :
    sh ∈ elf.sections ∧ sh.name = ".bootloader" ∧
    extractSection elf ".bootloader" =
      Except.ok ((elf.bytes.drop sh.offset).take sh.size) ∧
    ((elf.bytes.drop sh.offset).take sh.size).length = sh.size := by
  have hmem : sh ∈ elf.sections := List.mem_of_find?_eq_some hfind
  have hname : sh.name = ".bootloader" := by
    have := List.find?_some hfind
    simpa using this
  refine ⟨hmem, hname, ?_, ?_⟩
  · simp [extractSection, hok, hfind]
  · have hbound : sh.offset + sh.size ≤ elf.bytes.length := by
      simp only [structuralOk, Bool.and_eq_true, List.all_eq_true,
        decide_eq_true_eq] at hok
      exact hok.2 sh hmem
    simp only [List.length_take, List.length_drop]
    omega

/-- C6 witness: a nine-byte valid ELF input whose single section header
names .bootloader at offset 6 with size 3; extraction yields those three
bytes. -/
theorem C6_extract_raw_witness :
    extractSection ⟨[0x7f, 0x45, 0x4c, 0x46, 2, 1, 9, 8, 7],
        [⟨".bootloader", 6, 3⟩]⟩ ".bootloader" = Except.ok [9, 8, 7] := by
  have h := C6_extract_raw ⟨[0x7f, 0x45, 0x4c, 0x46, 2, 1, 9, 8, 7],
      [⟨".bootloader", 6, 3⟩]⟩ ⟨".bootloader", 6, 3⟩ (by decide) (by decide)
  rw [h.2.2.1]
  rfl

/-- C7: removing the Interrupted read results from the event sequence does
not change the composed output at all (the retry writes nothing extra),
while a non-interrupted read error aborts the copy loop at once with an
io error. -/
theorem C7_interrupted_transparent (boot ib : List Nat) (kernelSize : Nat)
    (events : List ReadEvent) :
    create_disk_image boot ib kernelSize (events.filter (fun e => !(isInterrupted e))) =
      create_disk_image boot ib kernelSize events ∧
    (∀ rest, copyKernel (ReadEvent.errInterrupted :: rest) = copyKernel rest) ∧
    (∀ rest, copyKernel (ReadEvent.errFatal :: rest) = ([], some Err.ioErr)) := by
  refine ⟨?_, fun rest => rfl, fun rest => rfl⟩
  simp [create_disk_image, copyKernel_filter]

/-- C8: the padding is always in [0, 511] and is zero exactly when the
kernel length is a multiple of 512; with a 512-byte kernel the total image
length is bootloader length + 1024. -/
theorem C8_padding_bounds :
    (∀ k, padding_size k ≤ 511) ∧
    (∀ k, padding_size k = 0 ↔ k % 512 = 0) ∧
    (∀ (boot : List Nat) (events : List ReadEvent) (content ib : List Nat),
      create_kernel_info_block 512 = Except.ok ib →
      copyKernel events = (content, none) →
      content.length = 512 →
      padding_size 512 = 0 ∧
      (create_disk_image boot ib 512 events).1.length = boot.length + 1024) := by
  refine ⟨?_, ?_, ?_⟩
  · intro k; simp only [padding_size]; omega
  · intro k; simp only [padding_size]; omega
  · intro boot events content ib hib hcopy hlen
    have hib2 : ib = writeU32LE 512 ++ List.replicate 508 0 := by
      simp [create_kernel_info_block, u32max] at hib
      exact hib.symm
    refine ⟨by simp [padding_size], ?_⟩
    have hlay := create_disk_image_layout boot ib 512 events content hcopy
    rw [hlay]
    simp [hib2, writeU32LE, hlen, padding_size]

/-- C8 witness: the third clause at a concrete 512-byte kernel with an
empty bootloader. -/
theorem C8_padding_bounds_witness :
    (create_disk_image [] (writeU32LE 512 ++ List.replicate 508 0) 512
        [ReadEvent.ok (List.replicate 512 9), ReadEvent.ok []]).1.length =
      ([] : List Nat).length + 1024 :=
  (C8_padding_bounds.2.2 [] [ReadEvent.ok (List.replicate 512 9), ReadEvent.ok []]
    (List.replicate 512 9) (writeU32LE 512 ++ List.replicate 508 0)
    (by simp [create_kernel_info_block, u32max])
    (copyKernel_single_replicate 511 9) (by simp)).2

/-- C9 counterexample: the source reports kernel length 0 while the reads
actually yield one byte; the composer nevertheless completes without any
error (the error component is none), instead of failing with an io error
as the claim states. -/
theorem C9_counterexample :
    (copyKernel [ReadEvent.ok [7], ReadEvent.ok []]).1.length ≠ 0 ∧
    (create_disk_image [] (writeU32LE 0 ++ List.replicate 508 0) 0
        [ReadEvent.ok [7], ReadEvent.ok []]).2 = none := by
  constructor
  · decide
  · decide

/-- C9 amended: the composer performs no consistency check between the
reported kernel length and the bytes actually read: whenever the copy
loop succeeds it writes exactly the bytes read, computes the padding from
the reported length alone, and completes without error, whatever the
mismatch. -/
theorem C9_no_mismatch_check (boot ib : List Nat) (kernelSize : Nat)
    (events : List ReadEvent) (content : List Nat)
    (hcopy : copyKernel events = (content, none)) :
    create_disk_image boot ib kernelSize events =
      (boot ++ ib ++ content ++ List.replicate (padding_size kernelSize) 0, none) :=
  create_disk_image_layout boot ib kernelSize events content hcopy

/-- C9 witness: reported length 5 against a single actually-read byte; the
composition still succeeds with that byte and padding for length 5. -/
theorem C9_no_mismatch_check_witness :
    create_disk_image [] [] 5 [ReadEvent.ok [1], ReadEvent.ok []] =
      ([] ++ [] ++ [1] ++ List.replicate (padding_size 5) 0, none) :=
  C9_no_mismatch_check [] [] 5 [ReadEvent.ok [1], ReadEvent.ok []] [1] (by decide)

/-- C10: the copy loop terminates exactly when the read stream eventually
yields end of file or a non-interrupted error; an interrupted read writes
nothing and continues the loop; a stream that is interrupted forever never
lets the loop terminate, whatever the iteration bound. -/
theorem C10_loop_termination (stream : Nat → ReadEvent) :
    ((∃ fuel, copyFuel stream fuel 0 = true) ↔
      (∃ i, isTerminal (stream i) = true)) ∧
    ((∀ i, stream i = ReadEvent.errInterrupted) →
      ∀ fuel, copyFuel stream fuel 0 = false) ∧
    (∀ rest, copyKernel (ReadEvent.errInterrupted :: rest) = copyKernel rest) := by
  refine ⟨⟨?_, ?_⟩, ?_, fun rest => rfl⟩
  · intro hterm
    rcases hterm with ⟨fuel, hfuel⟩
    rcases terminal_of_copyFuel stream fuel 0 hfuel with ⟨j, hj⟩
    exact ⟨j, by simpa using hj⟩
  · intro hterm
    rcases hterm with ⟨i, hi⟩
    refine ⟨i + 1, copyFuel_of_terminal stream (i + 1) 0 ⟨i, by omega, by simpa using hi⟩⟩
  · intro hall fuel
    by_contra hne
    have htrue : copyFuel stream fuel 0 = true := by
      cases hfe : copyFuel stream fuel 0
      · exact absurd hfe hne
      · rfl
    rcases terminal_of_copyFuel stream fuel 0 htrue with ⟨j, hj⟩
    rw [hall (0 + j)] at hj
    simp [isTerminal] at hj

/-- C10 witness: a stream that yields end of file at its first read makes
the loop terminate. -/
theorem C10_loop_termination_witness :
    ∃ fuel, copyFuel (fun _ => ReadEvent.ok []) fuel 0 = true :=
  (C10_loop_termination (fun _ => ReadEvent.ok [])).1.mpr ⟨0, by decide⟩

end Bootimage
